import Mathlib

set_option autoImplicit false

/-!
Shallow embedding of the cdev client (cdev.py): a typed HTTP client for a
database server exposing a JSON resource graph.  Decoded JSON values are
modelled by the inductive `J`; Python exceptions that the client code can
raise or catch are modelled by `PyErr`; fallible Python code is modelled
in `Except PyErr`.  The network is an oracle `Net` mapping the request the
client builds to the observable outcome of `urllib.request.urlopen`.
-/

/-- A decoded JSON value, as produced by `json.loads`
(numbers restricted to integers; no claim depends on floats). -/
inductive J where
  | null
  | bool (b : Bool)
  | str (s : String)
  | num (n : Int)
  | arr (elems : List J)
  | obj (fields : List (String × J))

/-- Lookup in a Python dict represented as an association list, where a
later binding for the same key overwrites an earlier one (as when a dict
is built by repeated assignment). -/
def dictGet {α : Type} : List (String × α) → String → Option α
  | [], _ => none
  | (k, v) :: rest, key =>
    match dictGet rest key with
    | some v => some v
    | none => if k = key then some v else none

/-- Python exceptions relevant to cdev.py.  The attached strings model
`str(e)` loosely (the exact interpreter message text is not modelled;
no claim depends on it). -/
inductive PyErr where
  | keyError (k : String)
  | typeError
  | attributeError
  | jsonDecodeError

/-- Rendering used when an exception is interpolated into a message with
`format`, as in `CacheInstance.__init__`. -/
def PyErr.str : PyErr → String
  | .keyError k => "KeyError: " ++ k
  | .typeError => "TypeError"
  | .attributeError => "AttributeError: read"
  | .jsonDecodeError => "JSONDecodeError"

/-- Python subscript `obj[key]` with a string key: on a dict it returns the
value or raises `KeyError`; on any other value it raises `TypeError`. -/
def pyGetItem (j : J) (key : String) : Except PyErr J :=
  match j with
  | .obj fields =>
    match dictGet fields key with
    | some v => .ok v
    | none => .error (.keyError key)
  | _ => .error .typeError

/-- Optional-field probe `if key in obj: self.f = obj[key]`, evaluated after
a required subscript has already established that `j` is a dict; absent keys
yield `none` rather than a placeholder value. -/
def jOptField (j : J) (key : String) : Option J :=
  match j with
  | .obj fields => dictGet fields key
  | _ => none

/-- Python iteration (list comprehension source): a JSON array yields its
elements, a string yields its characters as 1-character strings, a dict
yields its keys; every other value raises `TypeError`. -/
def pyIter (j : J) : Except PyErr (List J) :=
  match j with
  | .arr elems => .ok elems
  | .str s => .ok (s.data.map (fun c => J.str (String.mk [c])))
  | .obj fields => .ok (fields.map (fun kv => J.str kv.1))
  | _ => .error .typeError

/-- Iterating the value returned by `_request`: iterating Python `None`
raises `TypeError`. -/
def pyIterOpt : Option J → Except PyErr (List J)
  | none => .error .typeError
  | some j => pyIter j

/-- CDevException(code, desc) from cdev.py. -/
structure CDevException where
  code : Nat
  desc : String

/-- class Root: `self.namespaces = obj['namespaces']`. -/
structure Root where
  namespaces : J

/-- Root(data) as called in `CacheInstance.__init__`: `data` is the value
returned by `_request`, and subscripting Python `None` raises `TypeError`. -/
def Root.decode : Option J → Except PyErr Root
  | none => .error .typeError
  | some j =>
    match pyGetItem j "namespaces" with
    | .ok ns => .ok ⟨ns⟩
    | .error e => .error e

/-- class Namespace: required fields id, name, files, xml, queries. -/
structure Namespace where
  id : J
  name : J
  files : J
  xml : J
  queries : J

/-- Namespace(obj): five required subscripts, in source order. -/
def Namespace.decode (j : J) : Except PyErr Namespace :=
  match pyGetItem j "id" with
  | .error e => .error e
  | .ok id =>
    match pyGetItem j "name" with
    | .error e => .error e
    | .ok name =>
      match pyGetItem j "files" with
      | .error e => .error e
      | .ok files =>
        match pyGetItem j "xml" with
        | .error e => .error e
        | .ok xmlv =>
          match pyGetItem j "queries" with
          | .error e => .error e
          | .ok queries => .ok ⟨id, name, files, xmlv, queries⟩

/-- class File(CodeEntity): required id (from CodeEntity) and name; optional
content (from CodeEntity), generatedfiles, url, xml. -/
structure File where
  id : J
  content : Option J
  name : J
  generatedfiles : Option J
  url : Option J
  xml : Option J

/-- File(obj): `CodeEntity.__init__` reads required `id` and optional
`content`, then `File.__init__` reads required `name` and the optional
locators, in source order. -/
def File.decode (j : J) : Except PyErr File :=
  match pyGetItem j "id" with
  | .error e => .error e
  | .ok id =>
    match pyGetItem j "name" with
    | .error e => .error e
    | .ok name =>
      .ok ⟨id, jOptField j "content", name, jOptField j "generatedfiles",
           jOptField j "url", jOptField j "xml"⟩

/-- class XML(CodeEntity): required id, optional content. -/
structure XML where
  id : J
  content : Option J

/-- XML(obj). -/
def XML.decode (j : J) : Except PyErr XML :=
  match pyGetItem j "id" with
  | .error e => .error e
  | .ok id => .ok ⟨id, jOptField j "content"⟩

/-- class Query(CodeEntity): required id, plan, cached; optional content. -/
structure Query where
  id : J
  content : Option J
  plan : J
  cached : J

/-- Query(obj). -/
def Query.decode (j : J) : Except PyErr Query :=
  match pyGetItem j "id" with
  | .error e => .error e
  | .ok id =>
    match pyGetItem j "plan" with
    | .error e => .error e
    | .ok plan =>
      match pyGetItem j "cached" with
      | .error e => .error e
      | .ok cached => .ok ⟨id, jOptField j "content", plan, cached⟩

/-- class FileOperation(Operation): required success; optional errors
(both from Operation), optional file payload decoded as a File. -/
structure FileOperation where
  success : J
  errors : Option J
  file : Option File

/-- FileOperation(obj): Operation.__init__ first (success, errors), then
`if 'file' in obj: self.file = File(obj['file'])`, whose inner decode can
itself raise. -/
def FileOperation.decode (j : J) : Except PyErr FileOperation :=
  match pyGetItem j "success" with
  | .error e => .error e
  | .ok success =>
    match jOptField j "file" with
    | none => .ok ⟨success, jOptField j "errors", none⟩
    | some fj =>
      match File.decode fj with
      | .error e => .error e
      | .ok f => .ok ⟨success, jOptField j "errors", some f⟩

/-- class XMLOperation(Operation): optional xml and file payloads. -/
structure XMLOperation where
  success : J
  errors : Option J
  xml : Option XML
  file : Option File

/-- XMLOperation(obj): Operation.__init__, then optional xml, then optional
file, in source order. -/
def XMLOperation.decode (j : J) : Except PyErr XMLOperation :=
  match pyGetItem j "success" with
  | .error e => .error e
  | .ok success =>
    match jOptField j "xml" with
    | none =>
      match jOptField j "file" with
      | none => .ok ⟨success, jOptField j "errors", none, none⟩
      | some fj =>
        match File.decode fj with
        | .error e => .error e
        | .ok f => .ok ⟨success, jOptField j "errors", none, some f⟩
    | some xj =>
      match XML.decode xj with
      | .error e => .error e
      | .ok x =>
        match jOptField j "file" with
        | none => .ok ⟨success, jOptField j "errors", some x, none⟩
        | some fj =>
          match File.decode fj with
          | .error e => .error e
          | .ok f => .ok ⟨success, jOptField j "errors", some x, some f⟩

/-- class QueryOperation(Operation): optional resultset (kept verbatim) and
optional query payload decoded as a Query. -/
structure QueryOperation where
  success : J
  errors : Option J
  resultset : Option J
  query : Option Query

/-- QueryOperation(obj). -/
def QueryOperation.decode (j : J) : Except PyErr QueryOperation :=
  match pyGetItem j "success" with
  | .error e => .error e
  | .ok success =>
    match jOptField j "query" with
    | none => .ok ⟨success, jOptField j "errors", jOptField j "resultset", none⟩
    | some qj =>
      match Query.decode qj with
      | .error e => .error e
      | .ok q => .ok ⟨success, jOptField j "errors", jOptField j "resultset", some q⟩

/-- The standard base64 alphabet. -/
def b64chars : String :=
  "ABCDEFGHIJKLMNOPQRSTUVWXYZabcdefghijklmnopqrstuvwxyz0123456789+/"

/-- Character of the base64 alphabet at index `n < 64`. -/
def b64char (n : Nat) : Char := b64chars.data.getD n '='

/-- Encode a byte sequence three bytes at a time into base64 characters,
padding a final group of one or two bytes with `=`. -/
def b64groups : List Nat → List Char
  | [] => []
  | [a] => [b64char (a / 4), b64char (a % 4 * 16), '=', '=']
  | [a, b] => [b64char (a / 4), b64char (a % 4 * 16 + b / 16), b64char (b % 16 * 4), '=']
  | a :: b :: c :: rest =>
    b64char (a / 4) :: b64char (a % 4 * 16 + b / 16) ::
      b64char (b % 16 * 4 + c / 64) :: b64char (c % 64) :: b64groups rest

/-- UTF-8 encoding of a single character, as byte values. -/
def utf8Bytes (c : Char) : List Nat :=
  let n := c.toNat
  if n < 128 then [n]
  else if n < 2048 then [192 + n / 64, 128 + n % 64]
  else if n < 65536 then [224 + n / 4096, 128 + n / 64 % 64, 128 + n % 64]
  else [240 + n / 262144, 128 + n / 4096 % 64, 128 + n / 64 % 64, 128 + n % 64]

/-- UTF-8 encoding of a string, as byte values (`str.encode()`). -/
def strBytes (s : String) : List Nat :=
  s.data.foldr (fun c acc => utf8Bytes c ++ acc) []

/-- base64.b64encode(s.encode()).decode() from the transport routine. -/
def b64encode (s : String) : String := String.mk (b64groups (strBytes s))

/-- The `data` argument of `_request`: Python `None`, a dict literal, or an
arbitrary object carrying a `__dict__` (a `File` passed by `put_file`). -/
inductive PyData where
  | pynone
  | dict (fields : List (String × J))
  | obj (fields : List (String × J))

/-- Connection parameters stored on `self` before discovery runs
(`host`, `port`, `username`, `password`). -/
structure ConnParams where
  host : String
  port : Int
  username : String
  password : String

/-- The url_prefix property: "http://{0}:{1}".format(self.host, self.port). -/
def ConnParams.url_prefix (p : ConnParams) : String :=
  "http://" ++ p.host ++ ":" ++ toString p.port

/-- The `urllib.request.Request` value built by `_request`: absolute URL,
header dict (in insertion order), optional JSON body (kept as the JSON
value whose serialization is sent), and HTTP method. -/
structure Request where
  url : String
  headers : List (String × String)
  data : Option J
  method : String

/-- The exception object raised by `urlopen` as caught by
`except urllib.error.URLError`: `read` is the readable response body when
the error is an HTTP error response (`HTTPError`), and `none` for a plain
connection-level `URLError`, which has no `read` method. -/
structure URLError where
  read : Option String

/-- The body of a successful HTTP response, abstracted at the level
observable through `json.loads`: either well-formed JSON with its decoded
value, or unparseable text. -/
inductive Body where
  | json (v : J)
  | malformed (raw : String)

/-- json.loads applied to a response body. -/
def json_loads : Body → Except PyErr J
  | .json v => .ok v
  | .malformed _ => .error .jsonDecodeError

/-- Observable outcome of `urllib.request.urlopen` on one request: a
response body, a raised `URLError`, or some other raised exception. -/
inductive NetResult where
  | ok (body : Body)
  | urlError (e : URLError)
  | raises (e : PyErr)

/-- The network oracle: what `urlopen` does for each request the client
builds. -/
abbrev Net := Request → NetResult

/-- Lines 196-212 of cdev.py: normalize `data` through `__dict__`, serialize
a truthy body, set Content-Type when a body is present, concatenate the
url_prefix with the locator (a `TypeError` if the locator is not a string),
and attach the Basic Authorization header when both credentials are
non-empty. -/
def ConnParams.buildRequest (p : ConnParams) (url : J) (method : String)
    (data : PyData) : Except PyErr Request :=
  let data1 := match data with
    | .obj fields => PyData.dict fields
    | x => x
  let dataDict : Option (List (String × J)) := match data1 with
    | .dict fields => if fields.isEmpty then none else some fields
    | _ => none
  let requestData : Option J := dataDict.map J.obj
  let requestHeaders : List (String × String) :=
    if requestData.isSome then [("Content-Type", "application/json")] else []
  match url with
  | .str s =>
    let requestUrl := ConnParams.url_prefix p ++ s
    let requestHeaders :=
      if p.username ≠ "" ∧ p.password ≠ "" then
        requestHeaders ++
          [("Authorization", "Basic " ++ b64encode (p.username ++ ":" ++ p.password))]
      else requestHeaders
    .ok ⟨requestUrl, requestHeaders, requestData, method⟩
  | _ => .error .typeError

/-- Lines 214-220 of cdev.py: the `urlopen` call under
`try ... except urllib.error.URLError`.  A caught `URLError` triggers
`print("Error Response: {0}".format(e.read()))` and `return None`; for a
plain `URLError` the `e.read()` call itself raises `AttributeError`, which
is not caught and propagates.  A response body is passed to `json.loads`.
The second component of the result collects the printed diagnostics. -/
def handleResponse : NetResult → Except PyErr (Option J × List String)
  | .ok body =>
    match json_loads body with
    | .ok v => .ok (some v, [])
    | .error e => .error e
  | .urlError e =>
    match e.read with
    | some b => .ok (none, ["Error Response: " ++ b])
    | none => .error .attributeError
  | .raises e => .error e

/-- CacheInstance._request: build the request, run it against the network
oracle, and handle the outcome. -/
def ConnParams._request (p : ConnParams) (net : Net) (url : J)
    (method : String) (data : PyData) : Except PyErr (Option J × List String) :=
  match ConnParams.buildRequest p url method data with
  | .error e => .error e
  | .ok req => handleResponse (net req)

/-- class CacheInstance: connection parameters plus the namespace-collection
locator obtained by discovery. -/
structure CacheInstance extends ConnParams where
  namespaces : J

/-- CacheInstance.__init__: store the parameters, GET the fixed discovery
path, wrap any exception from that request as CDevException 44, wrap any
exception from `Root(data)` as CDevException 54, and keep
`root.namespaces`. -/
def CacheInstance.mk? (net : Net) (host : String) (port : Int)
    (username password : String) : Except CDevException CacheInstance :=
  let p : ConnParams := ⟨host, port, username, password⟩
  match ConnParams._request p net (J.str "/csp/sys/dev/") "GET" PyData.pynone with
  | .error e => .error ⟨44, "Cannot Connect to Server: " ++ PyErr.str e⟩
  | .ok (data, _) =>
    match Root.decode data with
    | .error e => .error ⟨54, "Invalid Server Response: " ++ PyErr.str e⟩
    | .ok root => .ok ⟨p, root.namespaces⟩

/-- Constructing an entity from the value returned by `_request`: if the
request was swallowed into Python `None`, the first required subscript in
the entity constructor raises `TypeError`. -/
def pyDecodeOpt {α : Type} (dec : J → Except PyErr α) : Option J → Except PyErr α
  | none => .error .typeError
  | some j => dec j

/-- CacheInstance.get_namespaces: GET the namespace collection and decode
each element as a Namespace. -/
def CacheInstance.get_namespaces (inst : CacheInstance) (net : Net) :
    Except PyErr (List Namespace × List String) :=
  match ConnParams._request inst.toConnParams net inst.namespaces "GET" PyData.pynone with
  | .error e => .error e
  | .ok (r, log) =>
    match pyIterOpt r with
    | .error e => .error e
    | .ok items =>
      match items.mapM Namespace.decode with
      | .error e => .error e
      | .ok nss => .ok (nss, log)

/-- CacheInstance.get_files: GET the namespace's files collection and decode
each element as a File. -/
def CacheInstance.get_files (inst : CacheInstance) (net : Net) (ns : Namespace) :
    Except PyErr (List File × List String) :=
  match ConnParams._request inst.toConnParams net ns.files "GET" PyData.pynone with
  | .error e => .error e
  | .ok (r, log) =>
    match pyIterOpt r with
    | .error e => .error e
    | .ok items =>
      match items.mapM File.decode with
      | .error e => .error e
      | .ok fs => .ok (fs, log)

/-- CacheInstance.get_file: GET the file's id locator and decode a File. -/
def CacheInstance.get_file (inst : CacheInstance) (net : Net) (file : File) :
    Except PyErr (File × List String) :=
  match ConnParams._request inst.toConnParams net file.id "GET" PyData.pynone with
  | .error e => .error e
  | .ok (r, log) =>
    match pyDecodeOpt File.decode r with
    | .error e => .error e
    | .ok f => .ok (f, log)

/-- The `__dict__` of a File object, in attribute insertion order:
`id`, then `content` when present (set by CodeEntity), then `name`, then
whichever of `generatedfiles`, `url`, `xml` are present. -/
def File.dict (f : File) : List (String × J) :=
  ("id", f.id) ::
    ((match f.content with | none => [] | some v => [("content", v)]) ++
      ("name", f.name) ::
        ((match f.generatedfiles with | none => [] | some v => [("generatedfiles", v)]) ++
          (match f.url with | none => [] | some v => [("url", v)]) ++
            (match f.xml with | none => [] | some v => [("xml", v)])))

/-- CacheInstance.put_file: PUT the File object itself (serialized through
its `__dict__`) to the file's id locator, and decode a FileOperation. -/
def CacheInstance.put_file (inst : CacheInstance) (net : Net) (file : File) :
    Except PyErr (FileOperation × List String) :=
  match ConnParams._request inst.toConnParams net file.id "PUT" (PyData.obj ( File.dict file)) with
  | .error e => .error e
  | .ok (r, log) =>
    match pyDecodeOpt FileOperation.decode r with
    | .error e => .error e
    | .ok op => .ok (op, log)

/-- CacheInstance.add_file: PUT `{name, content}` to the namespace's files
collection and decode a FileOperation. -/
def CacheInstance.add_file (inst : CacheInstance) (net : Net) (ns : Namespace)
    (filename filecontent : String) : Except PyErr (FileOperation × List String) :=
  match ConnParams._request inst.toConnParams net ns.files "PUT"
      (PyData.dict [("name", J.str filename), ("content", J.str filecontent)]) with
  | .error e => .error e
  | .ok (r, log) =>
    match pyDecodeOpt FileOperation.decode r with
    | .error e => .error e
    | .ok op => .ok (op, log)

/-- CacheInstance.compile_file: POST `{action: compile, spec}` to the file's
id locator and decode a FileOperation. -/
def CacheInstance.compile_file (inst : CacheInstance) (net : Net) (file : File)
    (spec : String) : Except PyErr (FileOperation × List String) :=
  match ConnParams._request inst.toConnParams net file.id "POST"
      (PyData.dict [("action", J.str "compile"), ("spec", J.str spec)]) with
  | .error e => .error e
  | .ok (r, log) =>
    match pyDecodeOpt FileOperation.decode r with
    | .error e => .error e
    | .ok op => .ok (op, log)

/-- CacheInstance.get_generated_files: when the File carries a
`generatedfiles` locator, GET it and decode a list of File; otherwise
return the empty list without touching the network. -/
def CacheInstance.get_generated_files (inst : CacheInstance) (net : Net)
    (file : File) : Except PyErr (List File × List String) :=
  match file.generatedfiles with
  | none => .ok ([], [])
  | some gf =>
    match ConnParams._request inst.toConnParams net gf "GET" PyData.pynone with
    | .error e => .error e
    | .ok (r, log) =>
      match pyIterOpt r with
      | .error e => .error e
      | .ok items =>
        match items.mapM File.decode with
        | .error e => .error e
        | .ok fs => .ok (fs, log)

/-- CacheInstance.get_xml: read `file.xml` (an `AttributeError` when the
File has no xml locator), GET it, and decode an XML entity. -/
def CacheInstance.get_xml (inst : CacheInstance) (net : Net) (file : File) :
    Except PyErr (XML × List String) :=
  match file.xml with
  | none => .error .attributeError
  | some u =>
    match ConnParams._request inst.toConnParams net u "GET" PyData.pynone with
    | .error e => .error e
    | .ok (r, log) =>
      match pyDecodeOpt XML.decode r with
      | .error e => .error e
      | .ok x => .ok (x, log)

/-- CacheInstance.put_xml: read `xml.content` (an `AttributeError` when
absent), PUT `{content}` to the xml id locator, and decode an
XMLOperation. -/
def CacheInstance.put_xml (inst : CacheInstance) (net : Net) (x : XML) :
    Except PyErr (XMLOperation × List String) :=
  match x.content with
  | none => .error .attributeError
  | some c =>
    match ConnParams._request inst.toConnParams net x.id "PUT"
        (PyData.dict [("content", c)]) with
    | .error e => .error e
    | .ok (r, log) =>
      match pyDecodeOpt XMLOperation.decode r with
      | .error e => .error e
      | .ok op => .ok (op, log)

/-- CacheInstance.add_xml: PUT `{content}` to the namespace's xml collection
and decode an XMLOperation. -/
def CacheInstance.add_xml (inst : CacheInstance) (net : Net) (ns : Namespace)
    (content : J) : Except PyErr (XMLOperation × List String) :=
  match ConnParams._request inst.toConnParams net ns.xml "PUT"
      (PyData.dict [("content", content)]) with
  | .error e => .error e
  | .ok (r, log) =>
    match pyDecodeOpt XMLOperation.decode r with
    | .error e => .error e
    | .ok op => .ok (op, log)

/-- CacheInstance.add_query: PUT `{content}` to the namespace's queries
collection and decode a QueryOperation. -/
def CacheInstance.add_query (inst : CacheInstance) (net : Net) (ns : Namespace)
    (text : J) : Except PyErr (QueryOperation × List String) :=
  match ConnParams._request inst.toConnParams net ns.queries "PUT"
      (PyData.dict [("content", text)]) with
  | .error e => .error e
  | .ok (r, log) =>
    match pyDecodeOpt QueryOperation.decode r with
    | .error e => .error e
    | .ok op => .ok (op, log)

/-- CacheInstance.execute_query: POST `{action: execute}` to the query's id
locator and decode a QueryOperation. -/
def CacheInstance.execute_query (inst : CacheInstance) (net : Net) (q : Query) :
    Except PyErr (QueryOperation × List String) :=
  match ConnParams._request inst.toConnParams net q.id "POST"
      (PyData.dict [("action", J.str "execute")]) with
  | .error e => .error e
  | .ok (r, log) =>
    match pyDecodeOpt QueryOperation.decode r with
    | .error e => .error e
    | .ok op => .ok (op, log)

/-- CacheInstance.get_query_plan: GET the query's plan locator, then execute
`return QueryOperation()` — a call that raises `TypeError`, because
`QueryOperation.__init__(self, obj)` requires the positional argument
`obj`.  The decoded plan body is discarded either way. -/
def CacheInstance.get_query_plan (inst : CacheInstance) (net : Net) (q : Query) :
    Except PyErr (QueryOperation × List String) :=
  match ConnParams._request inst.toConnParams net q.plan "GET" PyData.pynone with
  | .error e => .error e
  | .ok _ => .error .typeError

/-- Lookup in an appended dict: a binding in the right part wins over the
left part, as for Python dict updates. -/
theorem dictGet_append {α : Type} (xs ys : List (String × α)) (k : String) :
    dictGet (xs ++ ys) k =
      match dictGet ys k with
      | some v => some v
      | none => dictGet xs k := by
  induction xs with
  | nil => cases h : dictGet ys k <;> simp [dictGet, h]
  | cons hd tl ih =>
    obtain ⟨k1, v1⟩ := hd
    simp only [List.cons_append, dictGet, ih]
    cases h : dictGet ys k <;> cases h2 : dictGet tl k <;> simp [dictGet, ih, h, h2]

/-- A request against a network that answers every request with the same
well-formed JSON value succeeds with that value and prints nothing. -/
theorem request_const_json (p : ConnParams) (net : Net) (v : J) (s method : String)
    (d : PyData) (hnet : ∀ r, net r = NetResult.ok (Body.json v)) :
    ConnParams._request p net (J.str s) method d = .ok (some v, []) := by
  simp [ConnParams._request, ConnParams.buildRequest, hnet, handleResponse, json_loads]

/-- C6 (confirmed): for every request issued through the shared transport
routine, the request URL is exactly the prefix "http://{host}:{port}"
concatenated with the locator string, the locator echoed back
character-for-character with no escaping, normalization or path joining,
and the transport dispatches the network call on exactly that request. -/
theorem cdev_c6_url_concatenation (p : ConnParams) (s method : String)
    (d : PyData) (net : Net) :
    ∃ req, ConnParams.buildRequest p (J.str s) method d = .ok req ∧
      req.url = ConnParams.url_prefix p ++ s ∧
      ConnParams.url_prefix p = "http://" ++ p.host ++ ":" ++ toString p.port ∧
      ConnParams._request p net (J.str s) method d = handleResponse (net req) :=
  ⟨_, rfl, rfl, rfl, rfl⟩

/-- C7 (confirmed): a request built by the transport routine carries an
Authorization header with value "Basic " followed by the base64 encoding of
"username:password" exactly when both stored credentials are non-empty, and
carries no Authorization header when either is empty. -/
theorem cdev_c7_basic_auth_header (p : ConnParams) (s method : String)
    (d : PyData) (req : Request)
    (hreq : ConnParams.buildRequest p (J.str s) method d = .ok req) :
    (p.username ≠ "" → p.password ≠ "" →
      dictGet req.headers "Authorization" =
        some ("Basic " ++ b64encode (p.username ++ ":" ++ p.password))) ∧
    (p.username = "" ∨ p.password = "" →
      dictGet req.headers "Authorization" = none) := by
  simp only [ConnParams.buildRequest, Except.ok.injEq] at hreq
  subst hreq
  by_cases hcred : p.username ≠ "" ∧ p.password ≠ ""
  · constructor
    · intro h1 h2
      dsimp only
      rw [if_pos hcred, dictGet_append]
      simp [dictGet]
    · intro h
      rcases h with h | h
      · exact absurd h hcred.1
      · exact absurd h hcred.2
  · constructor
    · intro h1 h2
      exact absurd ⟨h1, h2⟩ hcred
    · intro h
      dsimp only
      rw [if_neg hcred]
      split <;> simp [dictGet]

/-- C7 witness: with credentials ("u", "pw") the Authorization header equals
"Basic " plus the base64 of "u:pw"; with an empty username there is no
Authorization header. -/
theorem cdev_c7_basic_auth_header_witness :
    (∃ req, ConnParams.buildRequest ⟨"h", 1, "u", "pw"⟩ (J.str "/a") "GET" PyData.pynone = .ok req ∧
      dictGet req.headers "Authorization" = some ("Basic " ++ b64encode ("u" ++ ":" ++ "pw"))) ∧
    (∃ req, ConnParams.buildRequest ⟨"h", 1, "", "pw"⟩ (J.str "/a") "GET" PyData.pynone = .ok req ∧
      dictGet req.headers "Authorization" = none) := by
  constructor
  · exact ⟨_, rfl, (cdev_c7_basic_auth_header ⟨"h", 1, "u", "pw"⟩ "/a" "GET"
      PyData.pynone _ rfl).1 (by decide) (by decide)⟩
  · exact ⟨_, rfl, (cdev_c7_basic_auth_header ⟨"h", 1, "", "pw"⟩ "/a" "GET"
      PyData.pynone _ rfl).2 (Or.inl rfl)⟩

/-- C1 counterexample: a transport-level URLError raised by the HTTP call IS
raised to the caller when the exception object has no readable body (a plain
connection-level URLError, which lacks a read method): the diagnostic print
itself raises an attribute-access error instead of yielding None. -/
theorem cdev_c1_urlerror_counterexample :
    ConnParams._request ⟨"h", 1, "", ""⟩ (fun _ => NetResult.urlError ⟨none⟩)
      (J.str "/x") "GET" PyData.pynone = .error PyErr.attributeError := rfl

/-- C1 (amended): for calls through the shared transport routine, a URLError
whose exception object carries a readable response body (an HTTP error
response) is not raised to the caller — the routine prints a diagnostic and
yields None; a URLError without a readable body escapes as an
attribute-access error raised from within the diagnostic print. -/
theorem cdev_c1_transport_error_handling (p : ConnParams) (net : Net) (url : J)
    (method : String) (d : PyData) (req : Request) (e : URLError)
    (hreq : ConnParams.buildRequest p url method d = .ok req)
    (hnet : net req = NetResult.urlError e) :
    (∀ b, e.read = some b →
      ConnParams._request p net url method d = .ok (none, ["Error Response: " ++ b])) ∧
    (e.read = none →
      ConnParams._request p net url method d = .error PyErr.attributeError) := by
  constructor
  · intro b hb
    simp [ConnParams._request, hreq, hnet, handleResponse, hb]
  · intro hb
    simp [ConnParams._request, hreq, hnet, handleResponse, hb]

/-- C1 witness: an HTTP error response with body "boom" is swallowed into
None plus the printed diagnostic. -/
theorem cdev_c1_transport_error_handling_witness :
    ConnParams._request ⟨"h", 1, "", ""⟩ (fun _ => NetResult.urlError ⟨some "boom"⟩)
      (J.str "/x") "GET" PyData.pynone = .ok (none, ["Error Response: " ++ "boom"]) :=
  (cdev_c1_transport_error_handling ⟨"h", 1, "", ""⟩
    (fun _ => NetResult.urlError ⟨some "boom"⟩) (J.str "/x") "GET" PyData.pynone
    _ _ rfl rfl).1 "boom" rfl

/-- C8 (code bug): get_query_plan never returns an operation wrapper; the
line `return QueryOperation()` raises TypeError because QueryOperation
requires its positional `obj` argument, even though the plan GET succeeded
and its decoded body was available to discard. -/
theorem cdev_c8_query_plan_always_raises :
    CacheInstance.get_query_plan ⟨⟨"h", 1, "u", "p"⟩, J.str "/ns"⟩
      (fun _ => NetResult.ok (Body.json (J.obj [("plan", J.str "P")])))
      ⟨J.str "/q", none, J.str "/q/plan", J.bool true⟩ = .error PyErr.typeError := rfl

/-- C10 (confirmed): on a File with no xml locator, get_xml raises an
attribute-access error instead of returning a result or an empty value,
while get_generated_files on a File with no generatedfiles locator returns
the empty list. -/
theorem cdev_c10_get_xml_unguarded (inst : CacheInstance) (net : Net) (f : File)
    (hxml : f.xml = none) :
    CacheInstance.get_xml inst net f = .error PyErr.attributeError ∧
    (f.generatedfiles = none →
      CacheInstance.get_generated_files inst net f = .ok ([], [])) := by
  constructor
  · simp [CacheInstance.get_xml, hxml]
  · intro h
    simp [CacheInstance.get_generated_files, h]

/-- C10 witness: a File decoded without xml or generatedfiles locators. -/
theorem cdev_c10_get_xml_unguarded_witness :
    CacheInstance.get_xml ⟨⟨"h", 1, "u", "p"⟩, J.str "/ns"⟩
      (fun _ => NetResult.urlError ⟨none⟩)
      ⟨J.str "/f", none, J.str "A.cls", none, none, none⟩ = .error PyErr.attributeError ∧
    CacheInstance.get_generated_files ⟨⟨"h", 1, "u", "p"⟩, J.str "/ns"⟩
      (fun _ => NetResult.urlError ⟨none⟩)
      ⟨J.str "/f", none, J.str "A.cls", none, none, none⟩ = .ok ([], []) :=
  ⟨(cdev_c10_get_xml_unguarded _ _ _ rfl).1,
   (cdev_c10_get_xml_unguarded _ _ _ rfl).2 rfl⟩

/-- C2 (confirmed): constructing the client against an unreachable host
(every request raises a plain connection-level URLError) fails with
CDevException 44 "Cannot Connect to Server" carrying the formatted cause,
while a reachable host whose discovery response is JSON with no usable
"namespaces" field fails with CDevException 54 "Invalid Server Response";
in both cases no client value is produced. -/
theorem cdev_c2_construction_failures (host : String) (port : Int)
    (username password : String) (netA netB : Net) (v : J) (e : PyErr)
    (hA : ∀ r, netA r = NetResult.urlError ⟨none⟩)
    (hB : ∀ r, netB r = NetResult.ok (Body.json v))
    (hv : pyGetItem v "namespaces" = .error e) :
    CacheInstance.mk? netA host port username password =
      .error ⟨44, "Cannot Connect to Server: " ++ PyErr.str PyErr.attributeError⟩ ∧
    CacheInstance.mk? netB host port username password =
      .error ⟨54, "Invalid Server Response: " ++ PyErr.str e⟩ := by
  constructor
  · simp [CacheInstance.mk?, ConnParams._request, ConnParams.buildRequest, hA,
      handleResponse]
  · simp [CacheInstance.mk?, ConnParams._request, ConnParams.buildRequest, hB,
      handleResponse, json_loads, Root.decode, hv]

/-- C2 witness: a network refusing every request yields code 44; a network
answering the discovery GET with `{}` yields code 54. -/
theorem cdev_c2_construction_failures_witness :
    CacheInstance.mk? (fun _ => NetResult.urlError ⟨none⟩) "bigfoot" 57776 "u" "p" =
      .error ⟨44, "Cannot Connect to Server: " ++ PyErr.str PyErr.attributeError⟩ ∧
    CacheInstance.mk? (fun _ => NetResult.ok (Body.json (J.obj []))) "bigfoot" 57776 "u" "p" =
      .error ⟨54, "Invalid Server Response: " ++ PyErr.str (PyErr.keyError "namespaces")⟩ :=
  cdev_c2_construction_failures "bigfoot" 57776 "u" "p"
    (fun _ => NetResult.urlError ⟨none⟩)
    (fun _ => NetResult.ok (Body.json (J.obj []))) (J.obj [])
    (PyErr.keyError "namespaces") (fun _ => rfl) (fun _ => rfl) rfl

/-- C5 (confirmed): get_generated_files on a File without a generatedfiles
locator returns the empty list against any network, with no error and no
diagnostic; with a locator present it returns exactly the Files decoded
from the JSON array the server answers with, and a decoded File carries
content exactly when the response object carried a content field. -/
theorem cdev_c5_generated_files (inst : CacheInstance) (net : Net) (f : File)
    (s : String) (items : List J) (fs : List File)
    (hgf : f.generatedfiles = some (J.str s))
    (hnet : ∀ r, net r = NetResult.ok (Body.json (J.arr items)))
    (hdec : items.mapM File.decode = .ok fs) :
    (∀ g : File, g.generatedfiles = none →
      ∀ net2 : Net, CacheInstance.get_generated_files inst net2 g = .ok ([], [])) ∧
    CacheInstance.get_generated_files inst net f = .ok (fs, []) ∧
    (∀ j fl, File.decode j = .ok fl → fl.content = jOptField j "content") := by
  refine ⟨?_, ?_, ?_⟩
  · intro g hg net2
    simp [CacheInstance.get_generated_files, hg]
  · rw [CacheInstance.get_generated_files, hgf]
    dsimp only
    rw [request_const_json inst.toConnParams net (J.arr items) s "GET" PyData.pynone hnet]
    simp only [pyIterOpt, pyIter]
    rw [hdec]
  · intro j fl h
    cases j <;> simp only [File.decode, pyGetItem] at h <;> try exact absurd h (by simp)
    rename_i fields
    cases h1 : dictGet fields "id" <;> rw [h1] at h
    · exact absurd h (by simp)
    · cases h2 : dictGet fields "name" <;> rw [h2] at h
      · exact absurd h (by simp)
      · cases h
        rfl

/-- C5 witness: a File with no locator yields []; a File whose locator
answers a two-element array yields the two decoded Files, the first with
content none. -/
theorem cdev_c5_generated_files_witness :
    CacheInstance.get_generated_files ⟨⟨"h", 1, "u", "p"⟩, J.str "/ns"⟩
      (fun _ => NetResult.urlError ⟨none⟩)
      ⟨J.str "/f", none, J.str "A.cls", none, none, none⟩ = .ok ([], []) ∧
    CacheInstance.get_generated_files ⟨⟨"h", 1, "u", "p"⟩, J.str "/ns"⟩
      (fun _ => NetResult.ok (Body.json (J.arr
        [J.obj [("id", J.str "/g1"), ("name", J.str "A.1.int")],
         J.obj [("id", J.str "/g2"), ("name", J.str "A.2.int")]])))
      ⟨J.str "/f", none, J.str "A.cls", some (J.str "/f/gen"), none, none⟩ =
      .ok ([⟨J.str "/g1", none, J.str "A.1.int", none, none, none⟩,
            ⟨J.str "/g2", none, J.str "A.2.int", none, none, none⟩], []) :=
  ⟨(cdev_c5_generated_files ⟨⟨"h", 1, "u", "p"⟩, J.str "/ns"⟩
      (fun _ => NetResult.ok (Body.json (J.arr
        [J.obj [("id", J.str "/g1"), ("name", J.str "A.1.int")],
         J.obj [("id", J.str "/g2"), ("name", J.str "A.2.int")]])))
      ⟨J.str "/f", none, J.str "A.cls", some (J.str "/f/gen"), none, none⟩
      "/f/gen" _ _ rfl (fun _ => rfl) rfl).1
      ⟨J.str "/f", none, J.str "A.cls", none, none, none⟩ rfl
      (fun _ => NetResult.urlError ⟨none⟩),
   (cdev_c5_generated_files ⟨⟨"h", 1, "u", "p"⟩, J.str "/ns"⟩
      (fun _ => NetResult.ok (Body.json (J.arr
        [J.obj [("id", J.str "/g1"), ("name", J.str "A.1.int")],
         J.obj [("id", J.str "/g2"), ("name", J.str "A.2.int")]])))
      ⟨J.str "/f", none, J.str "A.cls", some (J.str "/f/gen"), none, none⟩
      "/f/gen" _ _ rfl (fun _ => rfl) rfl).2.1⟩

/-- Decoding a FileOperation from a response object reporting failure with
no file payload: success stored verbatim, errors stored verbatim. -/
theorem fileOperation_decode_failure (resp : List (String × J))
    (hsucc : dictGet resp "success" = some (J.bool false))
    (hfile : dictGet resp "file" = none) :
    FileOperation.decode (J.obj resp) =
      .ok ⟨J.bool false, dictGet resp "errors", none⟩ := by
  simp [FileOperation.decode, pyGetItem, jOptField, hsucc, hfile]

/-- Decoding an XMLOperation from a response object reporting failure with
no xml or file payload. -/
theorem xmlOperation_decode_failure (resp : List (String × J))
    (hsucc : dictGet resp "success" = some (J.bool false))
    (hxml : dictGet resp "xml" = none)
    (hfile : dictGet resp "file" = none) :
    XMLOperation.decode (J.obj resp) =
      .ok ⟨J.bool false, dictGet resp "errors", none, none⟩ := by
  simp [XMLOperation.decode, pyGetItem, jOptField, hsucc, hxml, hfile]

/-- Decoding a QueryOperation from a response object reporting failure with
no query payload. -/
theorem queryOperation_decode_failure (resp : List (String × J))
    (hsucc : dictGet resp "success" = some (J.bool false))
    (hquery : dictGet resp "query" = none) :
    QueryOperation.decode (J.obj resp) =
      .ok ⟨J.bool false, dictGet resp "errors", dictGet resp "resultset", none⟩ := by
  simp [QueryOperation.decode, pyGetItem, jOptField, hsucc, hquery]

/-- C3 (confirmed): for every operation-wrapper-returning method, a server
response reporting success false (with no payload entity attached, per the
response contract) is never raised as an exception: the method returns the
wrapper with success stored as the JSON false value and the errors payload,
when present, stored verbatim for the caller to branch on. -/
theorem cdev_c3_operation_failure_is_data
    (inst : CacheInstance) (net : Net) (resp : List (String × J))
    (f : File) (fid : String) (ns : Namespace) (nsf nsx nsq : String)
    (x : XML) (xid : String) (xc : J) (q : Query) (qid : String)
    (filename filecontent spec : String) (content text : J)
    (hnet : ∀ r, net r = NetResult.ok (Body.json (J.obj resp)))
    (hsucc : dictGet resp "success" = some (J.bool false))
    (hfile : dictGet resp "file" = none)
    (hxml : dictGet resp "xml" = none)
    (hquery : dictGet resp "query" = none)
    (hf : f.id = J.str fid)
    (hnsf : ns.files = J.str nsf) (hnsx : ns.xml = J.str nsx)
    (hnsq : ns.queries = J.str nsq)
    (hxid : x.id = J.str xid) (hxc : x.content = some xc)
    (hq : q.id = J.str qid) :
    CacheInstance.put_file inst net f =
      .ok (⟨J.bool false, dictGet resp "errors", none⟩, []) ∧
    CacheInstance.add_file inst net ns filename filecontent =
      .ok (⟨J.bool false, dictGet resp "errors", none⟩, []) ∧
    CacheInstance.compile_file inst net f spec =
      .ok (⟨J.bool false, dictGet resp "errors", none⟩, []) ∧
    CacheInstance.put_xml inst net x =
      .ok (⟨J.bool false, dictGet resp "errors", none, none⟩, []) ∧
    CacheInstance.add_xml inst net ns content =
      .ok (⟨J.bool false, dictGet resp "errors", none, none⟩, []) ∧
    CacheInstance.add_query inst net ns text =
      .ok (⟨J.bool false, dictGet resp "errors", dictGet resp "resultset", none⟩, []) ∧
    CacheInstance.execute_query inst net q =
      .ok (⟨J.bool false, dictGet resp "errors", dictGet resp "resultset", none⟩, []) := by
  refine ⟨?_, ?_, ?_, ?_, ?_, ?_, ?_⟩
  · rw [CacheInstance.put_file, hf, request_const_json _ _ _ _ _ _ hnet]
    dsimp only [pyDecodeOpt]
    rw [fileOperation_decode_failure resp hsucc hfile]
  · rw [CacheInstance.add_file, hnsf, request_const_json _ _ _ _ _ _ hnet]
    dsimp only [pyDecodeOpt]
    rw [fileOperation_decode_failure resp hsucc hfile]
  · rw [CacheInstance.compile_file, hf, request_const_json _ _ _ _ _ _ hnet]
    dsimp only [pyDecodeOpt]
    rw [fileOperation_decode_failure resp hsucc hfile]
  · rw [CacheInstance.put_xml, hxc]
    dsimp only
    rw [hxid, request_const_json _ _ _ _ _ _ hnet]
    dsimp only [pyDecodeOpt]
    rw [xmlOperation_decode_failure resp hsucc hxml hfile]
  · rw [CacheInstance.add_xml, hnsx, request_const_json _ _ _ _ _ _ hnet]
    dsimp only [pyDecodeOpt]
    rw [xmlOperation_decode_failure resp hsucc hxml hfile]
  · rw [CacheInstance.add_query, hnsq, request_const_json _ _ _ _ _ _ hnet]
    dsimp only [pyDecodeOpt]
    rw [queryOperation_decode_failure resp hsucc hquery]
  · rw [CacheInstance.execute_query, hq, request_const_json _ _ _ _ _ _ hnet]
    dsimp only [pyDecodeOpt]
    rw [queryOperation_decode_failure resp hsucc hquery]

/-- C3 witness: against a server answering every request with
success false and errors "bad", each of the seven methods returns its
wrapper with success false and the errors payload, raising nothing. -/
theorem cdev_c3_operation_failure_is_data_witness :
    CacheInstance.put_file ⟨⟨"h", 1, "u", "p"⟩, J.str "/ns"⟩
      (fun _ => NetResult.ok (Body.json
        (J.obj [("success", J.bool false), ("errors", J.str "bad")])))
      ⟨J.str "/f", some (J.str "c"), J.str "A.cls", none, none, none⟩ =
      .ok (⟨J.bool false, some (J.str "bad"), none⟩, []) ∧
    CacheInstance.add_file ⟨⟨"h", 1, "u", "p"⟩, J.str "/ns"⟩
      (fun _ => NetResult.ok (Body.json
        (J.obj [("success", J.bool false), ("errors", J.str "bad")])))
      ⟨J.str "/n", J.str "USER", J.str "/files", J.str "/xml", J.str "/queries"⟩
      "B.cls" "body" =
      .ok (⟨J.bool false, some (J.str "bad"), none⟩, []) ∧
    CacheInstance.compile_file ⟨⟨"h", 1, "u", "p"⟩, J.str "/ns"⟩
      (fun _ => NetResult.ok (Body.json
        (J.obj [("success", J.bool false), ("errors", J.str "bad")])))
      ⟨J.str "/f", some (J.str "c"), J.str "A.cls", none, none, none⟩ "ck" =
      .ok (⟨J.bool false, some (J.str "bad"), none⟩, []) ∧
    CacheInstance.put_xml ⟨⟨"h", 1, "u", "p"⟩, J.str "/ns"⟩
      (fun _ => NetResult.ok (Body.json
        (J.obj [("success", J.bool false), ("errors", J.str "bad")])))
      ⟨J.str "/x", some (J.str "xc")⟩ =
      .ok (⟨J.bool false, some (J.str "bad"), none, none⟩, []) ∧
    CacheInstance.add_xml ⟨⟨"h", 1, "u", "p"⟩, J.str "/ns"⟩
      (fun _ => NetResult.ok (Body.json
        (J.obj [("success", J.bool false), ("errors", J.str "bad")])))
      ⟨J.str "/n", J.str "USER", J.str "/files", J.str "/xml", J.str "/queries"⟩
      (J.str "xmlcontent") =
      .ok (⟨J.bool false, some (J.str "bad"), none, none⟩, []) ∧
    CacheInstance.add_query ⟨⟨"h", 1, "u", "p"⟩, J.str "/ns"⟩
      (fun _ => NetResult.ok (Body.json
        (J.obj [("success", J.bool false), ("errors", J.str "bad")])))
      ⟨J.str "/n", J.str "USER", J.str "/files", J.str "/xml", J.str "/queries"⟩
      (J.str "sql") =
      .ok (⟨J.bool false, some (J.str "bad"), none, none⟩, []) ∧
    CacheInstance.execute_query ⟨⟨"h", 1, "u", "p"⟩, J.str "/ns"⟩
      (fun _ => NetResult.ok (Body.json
        (J.obj [("success", J.bool false), ("errors", J.str "bad")])))
      ⟨J.str "/q", none, J.str "/plan", J.bool true⟩ =
      .ok (⟨J.bool false, some (J.str "bad"), none, none⟩, []) :=
  cdev_c3_operation_failure_is_data
    ⟨⟨"h", 1, "u", "p"⟩, J.str "/ns"⟩
    (fun _ => NetResult.ok (Body.json
      (J.obj [("success", J.bool false), ("errors", J.str "bad")])))
    [("success", J.bool false), ("errors", J.str "bad")]
    ⟨J.str "/f", some (J.str "c"), J.str "A.cls", none, none, none⟩ "/f"
    ⟨J.str "/n", J.str "USER", J.str "/files", J.str "/xml", J.str "/queries"⟩
    "/files" "/xml" "/queries"
    ⟨J.str "/x", some (J.str "xc")⟩ "/x" (J.str "xc")
    ⟨J.str "/q", none, J.str "/plan", J.bool true⟩ "/q"
    "B.cls" "body" "ck" (J.str "xmlcontent") (J.str "sql")
    (fun _ => rfl) rfl rfl rfl rfl rfl rfl rfl rfl rfl rfl rfl

/-- C4 (confirmed): for each entity constructor applied to a decoded JSON
object, construction succeeds exactly when every required field is present;
a failed construction raises a key error naming a genuinely missing key;
and each optional field of a successfully constructed entity equals the
(optional) value of that key in the source object — absent keys stay
absent, so an absent content is distinguishable from a present empty
content. -/
theorem cdev_c4_entity_decoding (fs : List (String × J)) :
    ((∃ ns, Namespace.decode (J.obj fs) = .ok ns) ↔
      ((dictGet fs "id").isSome = true ∧ (dictGet fs "name").isSome = true ∧
        (dictGet fs "files").isSome = true ∧ (dictGet fs "xml").isSome = true ∧
        (dictGet fs "queries").isSome = true)) ∧
    (∀ e, Namespace.decode (J.obj fs) = .error e →
      ∃ k, e = PyErr.keyError k ∧ dictGet fs k = none) ∧
    ((∃ f, File.decode (J.obj fs) = .ok f) ↔
      ((dictGet fs "id").isSome = true ∧ (dictGet fs "name").isSome = true)) ∧
    (∀ f, File.decode (J.obj fs) = .ok f →
      f.content = dictGet fs "content" ∧
      f.generatedfiles = dictGet fs "generatedfiles" ∧
      f.url = dictGet fs "url" ∧ f.xml = dictGet fs "xml") ∧
    (∀ e, File.decode (J.obj fs) = .error e →
      ∃ k, e = PyErr.keyError k ∧ dictGet fs k = none) ∧
    ((∃ x, XML.decode (J.obj fs) = .ok x) ↔ (dictGet fs "id").isSome = true) ∧
    (∀ x, XML.decode (J.obj fs) = .ok x → x.content = dictGet fs "content") ∧
    ((∃ q, Query.decode (J.obj fs) = .ok q) ↔
      ((dictGet fs "id").isSome = true ∧ (dictGet fs "plan").isSome = true ∧
        (dictGet fs "cached").isSome = true)) ∧
    (∀ q, Query.decode (J.obj fs) = .ok q → q.content = dictGet fs "content") ∧
    (∀ e, Query.decode (J.obj fs) = .error e →
      ∃ k, e = PyErr.keyError k ∧ dictGet fs k = none) := by
  refine ⟨?_, ?_, ?_, ?_, ?_, ?_, ?_, ?_, ?_, ?_⟩
  · cases h1 : dictGet fs "id" <;> cases h2 : dictGet fs "name" <;>
      cases h3 : dictGet fs "files" <;> cases h4 : dictGet fs "xml" <;>
      cases h5 : dictGet fs "queries" <;>
      simp [Namespace.decode, pyGetItem, h1, h2, h3, h4, h5]
  · intro e he
    cases h1 : dictGet fs "id" <;> cases h2 : dictGet fs "name" <;>
      cases h3 : dictGet fs "files" <;> cases h4 : dictGet fs "xml" <;>
      cases h5 : dictGet fs "queries" <;>
      simp_all [Namespace.decode, pyGetItem]
    all_goals exact ⟨_, he.symm, by assumption⟩
  · cases h1 : dictGet fs "id" <;> cases h2 : dictGet fs "name" <;>
      simp [File.decode, pyGetItem, h1, h2]
  · intro f hf
    cases h1 : dictGet fs "id" <;> cases h2 : dictGet fs "name" <;>
      simp only [File.decode, pyGetItem, h1, h2, Except.ok.injEq] at hf <;>
      cases hf
    exact ⟨rfl, rfl, rfl, rfl⟩
  · intro e he
    cases h1 : dictGet fs "id" <;> cases h2 : dictGet fs "name" <;>
      simp_all [File.decode, pyGetItem]
    all_goals exact ⟨_, he.symm, by assumption⟩
  · cases h1 : dictGet fs "id" <;> simp [XML.decode, pyGetItem, h1]
  · intro x hx
    cases h1 : dictGet fs "id" <;>
      simp only [XML.decode, pyGetItem, h1, Except.ok.injEq] at hx <;>
      cases hx
    rfl
  · cases h1 : dictGet fs "id" <;> cases h2 : dictGet fs "plan" <;>
      cases h3 : dictGet fs "cached" <;>
      simp [Query.decode, pyGetItem, h1, h2, h3]
  · intro q hq
    cases h1 : dictGet fs "id" <;> cases h2 : dictGet fs "plan" <;>
      cases h3 : dictGet fs "cached" <;>
      simp only [Query.decode, pyGetItem, h1, h2, h3, Except.ok.injEq] at hq <;>
      cases hq
    rfl
  · intro e he
    cases h1 : dictGet fs "id" <;> cases h2 : dictGet fs "plan" <;>
      cases h3 : dictGet fs "cached" <;>
      simp_all [Query.decode, pyGetItem]
    all_goals exact ⟨_, he.symm, by assumption⟩

/-- C4 witness: a File decoded from an object without content has content
none; decoded from an object with an empty content string it has content
some ""; a Namespace cannot be decoded from an object with only an id. -/
theorem cdev_c4_entity_decoding_witness :
    (∃ f, File.decode (J.obj [("id", J.str "1"), ("name", J.str "A.cls")]) = .ok f ∧
      f.content = none) ∧
    (∃ f, File.decode (J.obj [("id", J.str "1"), ("name", J.str "A.cls"),
        ("content", J.str "")]) = .ok f ∧ f.content = some (J.str "")) ∧
    (∀ ns, ¬ Namespace.decode (J.obj [("id", J.str "1")]) = .ok ns) := by
  refine ⟨?_, ?_, ?_⟩
  · obtain ⟨f, hf⟩ := (cdev_c4_entity_decoding
      [("id", J.str "1"), ("name", J.str "A.cls")]).2.2.1.mpr (by decide)
    refine ⟨f, hf, ?_⟩
    exact (((cdev_c4_entity_decoding _).2.2.2.1 f hf).1).trans rfl
  · obtain ⟨f, hf⟩ := (cdev_c4_entity_decoding
      [("id", J.str "1"), ("name", J.str "A.cls"), ("content", J.str "")]).2.2.1.mpr
      (by decide)
    refine ⟨f, hf, ?_⟩
    exact (((cdev_c4_entity_decoding _).2.2.2.1 f hf).1).trans rfl
  · intro ns h
    have hall := (cdev_c4_entity_decoding [("id", J.str "1")]).1.mp ⟨ns, h⟩
    exact absurd hall.2.1 (by decide)

/-- Lookup of every File attribute in the dict serialized by put_file:
required attributes are always bound, optional attributes are bound exactly
when present on the entity. -/
theorem dictGet_fileDict (f : File) :
    dictGet ( File.dict f) "id" = some f.id ∧
    dictGet ( File.dict f) "content" = f.content ∧
    dictGet ( File.dict f) "name" = some f.name ∧
    dictGet ( File.dict f) "generatedfiles" = f.generatedfiles ∧
    dictGet ( File.dict f) "url" = f.url ∧
    dictGet ( File.dict f) "xml" = f.xml := by
  obtain ⟨id, content, name, gf, url, xml⟩ := f
  cases content <;> cases gf <;> cases url <;> cases xml <;>
    simp [File.dict, dictGet]

/-- C9 (confirmed): put_file serializes the File's entire current attribute
set as the request body sent to the file's id locator — id, name, and every
optional attribute that is present (content, generatedfiles, url, xml) —
not only the content field; and the decoded server response is returned as
the operation wrapper. -/
theorem cdev_c9_put_file_sends_full_dict (inst : CacheInstance) (net : Net)
    (f : File) (s : String) (hid : f.id = J.str s) :
    ∃ req,
      ConnParams.buildRequest inst.toConnParams f.id "PUT"
        (PyData.obj ( File.dict f)) = .ok req ∧
      ConnParams._request inst.toConnParams net f.id "PUT"
        (PyData.obj ( File.dict f)) = handleResponse (net req) ∧
      req.data = some (J.obj ( File.dict f)) ∧
      (∀ (net2 : Net) (v : J) (op : FileOperation),
        (∀ r, net2 r = NetResult.ok (Body.json v)) →
        FileOperation.decode v = .ok op →
        CacheInstance.put_file inst net2 f = .ok (op, [])) ∧
      dictGet ( File.dict f) "id" = some f.id ∧
      dictGet ( File.dict f) "content" = f.content ∧
      dictGet ( File.dict f) "name" = some f.name ∧
      dictGet ( File.dict f) "generatedfiles" = f.generatedfiles ∧
      dictGet ( File.dict f) "url" = f.url ∧
      dictGet ( File.dict f) "xml" = f.xml := by
  have h := dictGet_fileDict f
  have hput : ∀ (net2 : Net) (v : J) (op : FileOperation),
      (∀ r, net2 r = NetResult.ok (Body.json v)) →
      FileOperation.decode v = .ok op →
      CacheInstance.put_file inst net2 f = .ok (op, []) := by
    intro net2 v op hnet2 hdec
    rw [CacheInstance.put_file, hid, request_const_json _ _ _ _ _ _ hnet2]
    dsimp only [pyDecodeOpt]
    rw [hdec]
  rw [hid] at h ⊢
  exact ⟨_, rfl, rfl, rfl, hput, h.1, h.2.1, h.2.2.1, h.2.2.2.1, h.2.2.2.2.1,
    h.2.2.2.2.2⟩

/-- C9 witness: for a File carrying content, generatedfiles and xml
attributes, the serialized body is the full five-entry dict, not only the
content field. -/
theorem cdev_c9_put_file_sends_full_dict_witness :
    ∃ req,
      ConnParams.buildRequest ⟨"h", 1, "u", "p"⟩ (J.str "/f") "PUT"
        (PyData.obj ( File.dict ⟨J.str "/f", some (J.str "code"), J.str "A.cls",
          some (J.str "/gen"), none, some (J.str "/x")⟩)) = .ok req ∧
      req.data = some (J.obj
        [("id", J.str "/f"), ("content", J.str "code"), ("name", J.str "A.cls"),
         ("generatedfiles", J.str "/gen"), ("xml", J.str "/x")]) := by
  obtain ⟨req, h1, h2, h3, h4⟩ := cdev_c9_put_file_sends_full_dict
    ⟨⟨"h", 1, "u", "p"⟩, J.str "/ns"⟩ (fun _ => NetResult.urlError ⟨none⟩)
    ⟨J.str "/f", some (J.str "code"), J.str "A.cls", some (J.str "/gen"),
      none, some (J.str "/x")⟩ "/f" rfl
  refine ⟨req, h1, ?_⟩
  exact h3.trans rfl
